import Mathlib

/-!
Shallow embedding of the generation-progress relay of the dream-machine
repository: the in-process progress store (`src/app/api/progress/utils.ts`
and the copy embedded in the progress route), the bounded polling loop
`waitForPrediction` of the generate route, the three snapshots of the
`POST /generate` handler, and the per-tick behavior of the two snapshots
of the `GET /progress` server-push stream.

Conventions of the embedding:
  - JavaScript values reachable from the modelled code are embedded as
    `JSValue` (undefined, null, booleans, numbers, strings, arrays,
    objects).  Numbers are embedded as `Int`; no claim depends on
    non-integral numbers.
  - The external prediction service is an oracle: submission is an
    `Except String` value (ok or thrown), and status polling is a function
    from the poll index (0-based) to the reported `PredStatus`.
  - Request-body parsing (`await request.json()`) is an `Except String
    ReqBody` parameter: `Except.error` is a thrown parse failure, caught by
    the handler's catch-all.  The destructured `image` and `transformation`
    fields are `Option String` (`none` = absent/undefined); the JavaScript
    falsiness test `!x` on them is `none` or the empty string.
  - HTTP responses are a status code plus a JSON body (`JSValue.obj`).
    Log-only `console.*` calls and the free-form `details` diagnostic
    sub-objects of error bodies are elided: no claim mentions them.
  - Each POST model returns, besides the response, the progress store after
    the call and a flag telling whether the external submission call
    (`replicate.run` / `replicate.predictions.create`) was reached.
-/

/-- Local progress status of a generation, from the union type of
`ProgressUpdate.status` in `src/app/api/progress/utils.ts`. -/
inductive Status where
  | starting
  | generating
  | processing
  | complete
  | error
deriving DecidableEq, Repr

/-- One progress record, `\x7bstatus, progress, message\x7d`
(`src/app/api/progress/utils.ts` lines 1-5). -/
structure ProgressUpdate where
  status : Status
  progress : Int
  message : String
deriving DecidableEq, Repr

/-- The process-wide progress map (`progressMap` in utils.ts,
`progressUpdates` in the progress-route snapshot), embedded as an
association list with at most one entry per key, most recent first. -/
def ProgressStore := List (String × ProgressUpdate)

instance : DecidableEq ProgressStore := by
  unfold ProgressStore
  infer_instance

/-- `updateProgress` (utils.ts lines 10-12): `Map.set`, inserting or
overwriting the record for the identifier. -/
def updateProgress (m : ProgressStore) (generationId : String)
    (update : ProgressUpdate) : ProgressStore :=
  (generationId, update) :: List.filter (fun p => ¬ (p.1 = generationId)) m

/-- `getProgress` (utils.ts lines 14-16): `Map.get`, a non-throwing read
returning `none` when no record exists. -/
def getProgress (m : ProgressStore) (generationId : String) :
    Option ProgressUpdate :=
  (List.find? (fun p => p.1 = generationId) m).map (fun p => p.2)

/-- `clearProgress` (utils.ts lines 18-20): `Map.delete`. -/
def clearProgress (m : ProgressStore) (generationId : String) :
    ProgressStore :=
  List.filter (fun p => ¬ (p.1 = generationId)) m

/-- One store operation, for stating the read-after-write contract of the
store as a whole. -/
inductive StoreOp where
  | set (generationId : String) (update : ProgressUpdate)
  | del (generationId : String)

/-- Apply one store operation. -/
def applyOp (m : ProgressStore) : StoreOp → ProgressStore
  | StoreOp.set generationId update => updateProgress m generationId update
  | StoreOp.del generationId => clearProgress m generationId

/-- Apply a sequence of store operations, oldest first. -/
def applyOps (m : ProgressStore) (ops : List StoreOp) : ProgressStore :=
  List.foldl applyOp m ops

/-- The record the most recent operation touching `generationId` leaves
behind (`some u` for a set, `none` for a delete), starting from what the
initial store holds. -/
def lastWrite (generationId : String) (init : Option ProgressUpdate)
    (ops : List StoreOp) : Option ProgressUpdate :=
  List.foldl
    (fun acc op =>
      match op with
      | StoreOp.set i u => if i = generationId then some u else acc
      | StoreOp.del i => if i = generationId then none else acc)
    init ops

/-- Embedded JavaScript/JSON values. -/
inductive JSValue where
  | undef
  | null
  | bool (b : Bool)
  | num (n : Int)
  | str (s : String)
  | arr (xs : List JSValue)
  | obj (fields : List (String × JSValue))
deriving Repr

/-- Field lookup on an embedded JSON object; `none` on any other value or
a missing key. -/
def jsLookup (v : JSValue) (key : String) : Option JSValue :=
  match v with
  | JSValue.obj fields =>
      (List.find? (fun p => p.1 = key) fields).map (fun p => p.2)
  | _ => none

/-- External prediction status values
(`status.status` strings compared in `waitForPrediction`). -/
inductive ExternalStatus where
  | starting
  | processing
  | succeeded
  | failed
  | canceled
deriving DecidableEq, Repr

/-- One response of `replicate.predictions.get`:
`\x7bstatus, output?, error?\x7d`. -/
structure PredStatus where
  status : ExternalStatus
  output : JSValue
  error : Option String

/-- JavaScript template-literal rendering of the possibly-undefined
`status.error` in the failure message. -/
def errText : Option String → String
  | some e => e
  | none => "undefined"

/-- Outcome of the polling loop: the value returned or the message of the
thrown error, plus the number of polls (`replicate.predictions.get` calls)
performed. -/
structure WaitResult where
  outcome : Except String JSValue
  polls : Nat
deriving Repr

/-- `maxAttempts`, the default bound of `waitForPrediction`. -/
def maxAttempts : Nat := 30

/-- The fixed inter-poll delay of `waitForPrediction`, in milliseconds
(`setTimeout(resolve, 2000)`). -/
def pollDelayMs : Nat := 2000

/-- The `while (attempts < maxAttempts)` loop of `waitForPrediction`
(generate-route snapshot, lines 26-51), with `attempts` the loop counter
so far and `remaining` the attempts left.  Each iteration polls once;
`succeeded` returns `status.output` unvalidated, `failed` and `canceled`
throw, anything else waits and continues; exhaustion throws the timeout. -/
def waitFrom (getStatus : Nat → PredStatus) :
    Nat → Nat → WaitResult
  | attempts, 0 => WaitResult.mk (Except.error "Prediction timed out") attempts
  | attempts, remaining + 1 =>
      let s := getStatus attempts
      if s.status = ExternalStatus.succeeded then
        WaitResult.mk (Except.ok s.output) (attempts + 1)
      else if s.status = ExternalStatus.failed then
        WaitResult.mk
          (Except.error ("Prediction failed: " ++ errText s.error))
          (attempts + 1)
      else if s.status = ExternalStatus.canceled then
        WaitResult.mk (Except.error "Prediction was canceled") (attempts + 1)
      else
        waitFrom getStatus (attempts + 1) remaining

/-- `waitForPrediction(prediction)` with the default bound of 30. -/
def waitForPrediction (getStatus : Nat → PredStatus) : WaitResult :=
  waitFrom getStatus 0 maxAttempts

/-- The Replicate model reference shared by every transformation entry of
`modelMap` in the generate route. -/
def sdxlModel : String :=
  "stability-ai/sdxl:39ed52f2a78e934b3ba6e2a89f5b1c712de7dfea535525255b1aa35c5565e08b"

/-- `modelMap`: transformation identifier to model version
(generate route, lines 9-15). -/
def modelMap : List (String × String) :=
  [("sargent", sdxlModel),
   ("surrealist", sdxlModel),
   ("color-palette", sdxlModel),
   ("background", sdxlModel),
   ("composition", sdxlModel)]

/-- `promptMap`: transformation identifier to prompt text (generate route,
lines 18-24).  The apostrophe of the surrealist prompt is dropped from the
literal; no claim depends on the prompt text. -/
def promptMap : List (String × String) :=
  [("sargent", "Transform this image into the style of John Singer Sargent, with his characteristic loose brushwork, dramatic lighting, and elegant portraiture style"),
   ("surrealist", "Transform this image into a surrealist style, with dreamlike elements, unexpected juxtapositions, and a touch of Salvador Dalis influence"),
   ("color-palette", "Create variations of this image with different color palettes while maintaining the original composition and subject matter"),
   ("background", "Keep the main subject but change the background to create different moods and settings"),
   ("composition", "Create alternative compositions of this image, exploring different angles, framing, and arrangements of elements")]

/-- Object-literal property read `map[key]`, as used on `modelMap` and
`promptMap`: `none` stands for the JavaScript `undefined` of a missing
key. -/
def lookupStr (m : List (String × String)) (key : String) : Option String :=
  (List.find? (fun p => p.1 = key) m).map (fun p => p.2)

/-- The destructured request body
`const \x7b image, transformation \x7d = await request.json()`:
`none` is an absent/undefined field. -/
structure ReqBody where
  image : Option String
  transformation : Option String

/-- JavaScript falsiness of a possibly-absent string field: `!x` is true
for `undefined` and for the empty string. -/
def falsy : Option String → Bool
  | none => true
  | some s => s = ""

/-- An HTTP response: status code plus JSON body. -/
structure HttpResponse where
  status : Nat
  body : JSValue

/-- Result of one POST call: the response, the progress store afterwards,
and whether the external submission call was reached. -/
structure PostOutcome where
  resp : HttpResponse
  store : ProgressStore
  submitted : Bool

/-- JavaScript `String.prototype.startsWith`, as called with the literal
`http` in the generate route and embedded as a character-list prefix
check.  (Lean core's `String.startsWith` is defined by well-founded
recursion over byte positions and does not reduce inside the kernel;
this definition agrees with it and is kernel-computable.) -/
def jsStartsWith (s pre : String) : Bool :=
  List.isPrefixOf pre.data s.data

mutual

/-- The `findUrls` helper of the generate-route snapshot with the polling
loop (lines 126-136): collect every scheme-prefixed string reachable
inside a value, recursing through arrays and object values. -/
def findUrls : JSValue → List String
  | JSValue.str s => if jsStartsWith s "http" then [s] else []
  | JSValue.arr xs => findUrlsList xs
  | JSValue.obj fields => findUrlsFields fields
  | _ => []

/-- `findUrls` pushed across the items of an array. -/
def findUrlsList : List JSValue → List String
  | [] => []
  | v :: vs => findUrls v ++ findUrlsList vs

/-- `findUrls` pushed across `Object.values` of an object. -/
def findUrlsFields : List (String × JSValue) → List String
  | [] => []
  | p :: ps => findUrls p.2 ++ findUrlsFields ps

end

/-- The response-format dispatch of the same snapshot (lines 117-138):
arrays keep their string items that start with `http`; non-null,
non-array objects are searched with `findUrls`; anything else yields no
URLs. -/
def imageUrlsOf (output : JSValue) : List String :=
  match output with
  | JSValue.arr xs =>
      List.filterMap
        (fun v =>
          match v with
          | JSValue.str s =>
              if jsStartsWith s "http" then some s else none
          | _ => none)
        xs
  | JSValue.obj fields => findUrlsFields fields
  | _ => []

/-- A 400 validation response body `\x7b error \x7d`. -/
def errorBody (msg : String) : JSValue :=
  JSValue.obj [("error", JSValue.str msg)]

/-- `POST` of `src/app/api/generate/route.ts`, first snapshot (lines
26-69): parse body, validate, one `replicate.run` call, return its output
unvalidated as `\x7b images: output \x7d`; any thrown error reaches the
catch-all 500.  `run` is the outcome of `replicate.run`. -/
def GenerateRouteA.POST (store : ProgressStore)
    (body : Except String ReqBody) (run : Except String JSValue) :
    PostOutcome :=
  match body with
  | Except.error _ =>
      PostOutcome.mk
        (HttpResponse.mk 500 (errorBody "Failed to generate images"))
        store false
  | Except.ok b =>
      if falsy b.image ∨ falsy b.transformation then
        PostOutcome.mk
          (HttpResponse.mk 400
            (errorBody "Image and transformation are required"))
          store false
      else
        match lookupStr modelMap (b.transformation.getD ""),
            lookupStr promptMap (b.transformation.getD "") with
        | some _, some _ =>
            (match run with
             | Except.error _ =>
                 PostOutcome.mk
                   (HttpResponse.mk 500
                     (errorBody "Failed to generate images"))
                   store true
             | Except.ok output =>
                 PostOutcome.mk
                   (HttpResponse.mk 200 (JSValue.obj [("images", output)]))
                   store true)
        | _, _ =>
            PostOutcome.mk
              (HttpResponse.mk 400 (errorBody "Invalid transformation"))
              store false

/-- `POST` of `src/app/api/generate/route.ts`, second snapshot (lines
94-182): like the first, but a non-array output is a 500
"Invalid response format", string items of an array output are kept when
non-empty (no scheme check), and zero surviving items is a 500
"No valid images were generated". -/
def GenerateRouteB.POST (store : ProgressStore)
    (body : Except String ReqBody) (run : Except String JSValue) :
    PostOutcome :=
  match body with
  | Except.error _ =>
      PostOutcome.mk
        (HttpResponse.mk 500 (errorBody "Failed to generate images"))
        store false
  | Except.ok b =>
      if falsy b.image ∨ falsy b.transformation then
        PostOutcome.mk
          (HttpResponse.mk 400
            (errorBody "Image and transformation are required"))
          store false
      else
        match lookupStr modelMap (b.transformation.getD ""),
            lookupStr promptMap (b.transformation.getD "") with
        | some _, some _ =>
            (match run with
             | Except.error _ =>
                 PostOutcome.mk
                   (HttpResponse.mk 500
                     (errorBody "Failed to generate images"))
                   store true
             | Except.ok output =>
                 match output with
                 | JSValue.arr xs =>
                     let validOutputs :=
                       List.filterMap
                         (fun v =>
                           match v with
                           | JSValue.str s =>
                               if 0 < String.length s then some s else none
                           | _ => none)
                         xs
                     if validOutputs = [] then
                       PostOutcome.mk
                         (HttpResponse.mk 500
                           (errorBody "No valid images were generated"))
                         store true
                     else
                       PostOutcome.mk
                         (HttpResponse.mk 200
                           (JSValue.obj
                             [("images",
                               JSValue.arr (validOutputs.map JSValue.str)),
                              ("debug",
                               JSValue.obj
                                 [("totalOutputs",
                                   JSValue.num (Int.ofNat xs.length)),
                                  ("validOutputs",
                                   JSValue.num
                                     (Int.ofNat validOutputs.length))])]))
                         store true
                 | _ =>
                     PostOutcome.mk
                       (HttpResponse.mk 500
                         (errorBody "Invalid response format from Replicate API"))
                       store true)
        | _, _ =>
            PostOutcome.mk
              (HttpResponse.mk 400 (errorBody "Invalid transformation"))
              store false

/-- `POST` of the generate-route snapshot with the polling loop (lines
53-204): parse and validate as before, then inside an inner try submit
with `replicate.predictions.create` (`create`), run `waitForPrediction`
against the status oracle `getStatus`, extract URLs with the
array/object dispatch, and answer 200 with the URL list or 500 when none
survive; any throw inside the inner try (submission failure, waiter
failure) is the inner-catch 500 "Failed to generate images", and a body
parse failure is the outer-catch 500 "An unexpected error occurred". -/
def GenerateRouteC.POST (store : ProgressStore)
    (body : Except String ReqBody) (create : Except String Unit)
    (getStatus : Nat → PredStatus) : PostOutcome :=
  match body with
  | Except.error _ =>
      PostOutcome.mk
        (HttpResponse.mk 500 (errorBody "An unexpected error occurred"))
        store false
  | Except.ok b =>
      if falsy b.image ∨ falsy b.transformation then
        PostOutcome.mk
          (HttpResponse.mk 400
            (errorBody "Image and transformation are required"))
          store false
      else
        match lookupStr modelMap (b.transformation.getD ""),
            lookupStr promptMap (b.transformation.getD "") with
        | some _, some _ =>
            (match create with
             | Except.error _ =>
                 PostOutcome.mk
                   (HttpResponse.mk 500
                     (errorBody "Failed to generate images"))
                   store true
             | Except.ok _ =>
                 match (waitForPrediction getStatus).outcome with
                 | Except.error _ =>
                     PostOutcome.mk
                       (HttpResponse.mk 500
                         (errorBody "Failed to generate images"))
                       store true
                 | Except.ok output =>
                     let imageUrls := imageUrlsOf output
                     if imageUrls = [] then
                       PostOutcome.mk
                         (HttpResponse.mk 500
                           (errorBody "No valid images were generated"))
                         store true
                     else
                       PostOutcome.mk
                         (HttpResponse.mk 200
                           (JSValue.obj
                             [("images",
                               JSValue.arr (imageUrls.map JSValue.str)),
                              ("debug",
                               JSValue.obj
                                 [("totalOutputs",
                                   JSValue.num (Int.ofNat imageUrls.length)),
                                  ("rawResponse", output)])]))
                         store true)
        | _, _ =>
            PostOutcome.mk
              (HttpResponse.mk 400 (errorBody "Invalid transformation"))
              store false

/-- Observable effect of one interval tick of a progress stream: whether
the interval is still armed and the stream still open afterwards, the
store afterwards, and the event pushed (if any). -/
structure TickOut where
  isOpen : Bool
  store : ProgressStore
  event : Option ProgressUpdate

/-- One interval tick of `GET /progress` in the snapshot that embeds its
own store (part of the progress route, lines 44-56): read the store; push
the record when present; when the pushed record's status is `complete`
(and only then) clear the interval, close the stream and delete the
record.  A tick of an already-closed stream does nothing. -/
def ProgressRouteA.tick (generationId : String) (store : ProgressStore)
    (isOpen : Bool) : TickOut :=
  if isOpen then
    match getProgress store generationId with
    | some progress =>
        if progress.status = Status.complete then
          TickOut.mk false (clearProgress store generationId) (some progress)
        else
          TickOut.mk true store (some progress)
    | none => TickOut.mk true store none
  else
    TickOut.mk false store none

/-- One interval tick of `GET /progress` in the snapshot that imports the
store from utils (lines 913-931 of the bundled sources): push the record
when present; when its status is `complete` or `error` clear the interval
and close the stream, without deleting the record. -/
def ProgressRouteB.tick (generationId : String) (store : ProgressStore)
    (isOpen : Bool) : TickOut :=
  if isOpen then
    match getProgress store generationId with
    | some progress =>
        if progress.status = Status.complete ∨
            progress.status = Status.error then
          TickOut.mk false store (some progress)
        else
          TickOut.mk true store (some progress)
    | none => TickOut.mk true store none
  else
    TickOut.mk false store none

/-- The push performed on stream open, before the interval is armed (both
snapshots): the current record if present, with no status check and no
close. -/
def initialPush (generationId : String) (store : ProgressStore) :
    Option ProgressUpdate :=
  getProgress store generationId

/-- The abort listener of both snapshots: on client disconnect the
interval is cleared and the stream closed. -/
def abortStream (_isOpen : Bool) : Bool := false

/-- Run a sequence of interval ticks of the first stream snapshot, each
against the store contents observed at that tick, collecting the pushed
events and the final open flag.  (The tick's own delete only fires on the
closing tick, after which no further reads happen, so the observed-store
sequence is not threaded through the deletes.) -/
def ProgressRouteA.runTicks (generationId : String) :
    Bool → List ProgressStore → Bool × List ProgressUpdate
  | isOpen, [] => (isOpen, [])
  | isOpen, store :: rest =>
      let t := ProgressRouteA.tick generationId store isOpen
      let r := ProgressRouteA.runTicks generationId t.isOpen rest
      (r.1, t.event.toList ++ r.2)

/-- Run a sequence of interval ticks of the second stream snapshot. -/
def ProgressRouteB.runTicks (generationId : String) :
    Bool → List ProgressStore → Bool × List ProgressUpdate
  | isOpen, [] => (isOpen, [])
  | isOpen, store :: rest =>
      let t := ProgressRouteB.tick generationId store isOpen
      let r := ProgressRouteB.runTicks generationId t.isOpen rest
      (r.1, t.event.toList ++ r.2)

/-- The interval period of both stream snapshots, in milliseconds
(`setInterval(..., 1000)`). -/
def streamTickMs : Nat := 1000

/-- An empty or missing `output` accompanying a `succeeded` status: the
empty array, JSON null, or an absent field. -/
def emptyOutput (v : JSValue) : Prop :=
  v = JSValue.arr [] ∨ v = JSValue.null ∨ v = JSValue.undef

/-- A well-formed request body with a recognized transformation, used as a
concrete test input. -/
def validBody : ReqBody :=
  ReqBody.mk (some "data:image/png;base64,AAAA") (some "sargent")

/-- A status oracle that reports success with one scheme-prefixed output
URL on every poll. -/
def successOracle : Nat → PredStatus :=
  fun _ =>
    PredStatus.mk ExternalStatus.succeeded
      (JSValue.arr [JSValue.str "http://x/1.png"]) none

/-- A status oracle that reports a terminal failure on every poll. -/
def failedOracle : Nat → PredStatus :=
  fun _ => PredStatus.mk ExternalStatus.failed JSValue.undef (some "boom")

/-- A status oracle that never leaves `processing`. -/
def processingOracle : Nat → PredStatus :=
  fun _ => PredStatus.mk ExternalStatus.processing JSValue.undef none

/-- A status oracle that reports success with an empty output list. -/
def emptySuccessOracle : Nat → PredStatus :=
  fun _ => PredStatus.mk ExternalStatus.succeeded (JSValue.arr []) none

/-- The seed record the specification says the generate endpoint writes
at job start. -/
def startingRecord : ProgressUpdate :=
  ProgressUpdate.mk Status.starting 0 "Starting image generation..."

/-- A store holding only the seed record for the identifier `gen1`. -/
def seededStore : ProgressStore := [("gen1", startingRecord)]

/-- A terminal error record, used as concrete stream input. -/
def errorRecord : ProgressUpdate :=
  ProgressUpdate.mk Status.error 100 "Generation failed"

/-- A store holding only an error record for the identifier `gen1`. -/
def errorStore : ProgressStore := [("gen1", errorRecord)]

/-- A terminal complete record, used as concrete stream input. -/
def completeRecord : ProgressUpdate :=
  ProgressUpdate.mk Status.complete 100 "Generation complete!"

/-- A store holding only a complete record for the identifier `gen1`. -/
def completeStore : ProgressStore := [("gen1", completeRecord)]

/-- Finding a key in a list from which a different key has been filtered
out finds the same entry. -/
theorem find?_filter_ne (m : List (String × ProgressUpdate))
    (i generationId : String) (h : ¬ i = generationId) :
    List.find? (fun p => p.1 = generationId)
        (List.filter (fun p => ¬ (p.1 = i)) m)
      = List.find? (fun p => p.1 = generationId) m := by
  induction m with
  | nil => rfl
  | cons p rest ih =>
    by_cases hp : p.1 = i
    · have hpg : ¬ (p.1 = generationId) := by rw [hp]; exact h
      rw [List.filter_cons_of_neg (by simpa using hp),
        List.find?_cons_of_neg _ (by simpa using hpg), ih]
    · by_cases hg : p.1 = generationId
      · rw [List.filter_cons_of_pos (by simpa using hp),
          List.find?_cons_of_pos _ (by simpa using hg),
          List.find?_cons_of_pos _ (by simpa using hg)]
      · rw [List.filter_cons_of_pos (by simpa using hp),
          List.find?_cons_of_neg _ (by simpa using hg),
          List.find?_cons_of_neg _ (by simpa using hg), ih]

/-- Reading after `updateProgress`: the written identifier returns the new
record, any other identifier is unaffected. -/
theorem getProgress_update (m : ProgressStore) (i generationId : String)
    (u : ProgressUpdate) :
    getProgress (updateProgress m i u) generationId
      = if i = generationId then some u else getProgress m generationId := by
  unfold getProgress updateProgress
  by_cases h : i = generationId
  · rw [List.find?_cons_of_pos _ (by simpa using h), if_pos h]
    rfl
  · rw [List.find?_cons_of_neg _ (by simpa using h), if_neg h,
      find?_filter_ne m i generationId h]

/-- Reading after `clearProgress`: the deleted identifier returns absent,
any other identifier is unaffected. -/
theorem getProgress_clear (m : ProgressStore) (i generationId : String) :
    getProgress (clearProgress m i) generationId
      = if i = generationId then none else getProgress m generationId := by
  unfold getProgress clearProgress
  by_cases h : i = generationId
  · rw [if_pos h]
    have hnone : List.find? (fun p => p.1 = generationId)
        (List.filter (fun p => ¬ (p.1 = i)) m) = none := by
      rw [List.find?_eq_none]
      intro x hx
      have hxm := List.mem_filter.mp hx
      have hxi : ¬ (x.1 = i) := by simpa using hxm.2
      subst h
      simpa using hxi
    rw [hnone]
    rfl
  · rw [if_neg h, find?_filter_ne m i generationId h]

/-- Deleting an identifier with no record leaves the store unchanged:
`clearProgress` on an absent identifier is a no-op. -/
theorem clearProgress_absent (m : ProgressStore) (generationId : String)
    (h : getProgress m generationId = none) :
    clearProgress m generationId = m := by
  induction m with
  | nil => rfl
  | cons p rest ih =>
    unfold getProgress at h ih
    by_cases hp : p.1 = generationId
    · rw [List.find?_cons_of_pos _ (by simpa using hp)] at h
      simp at h
    · rw [List.find?_cons_of_neg _ (by simpa using hp)] at h
      unfold clearProgress at ih ⊢
      rw [List.filter_cons_of_pos (by simpa using hp), ih h]

/-- Read-after-write: after any sequence of sets and deletes, `getProgress`
returns exactly what the most recent operation touching the identifier
left behind. -/
theorem getProgress_applyOps (m : ProgressStore) (ops : List StoreOp)
    (generationId : String) :
    getProgress (applyOps m ops) generationId
      = lastWrite generationId (getProgress m generationId) ops := by
  induction ops generalizing m with
  | nil => rfl
  | cons op rest ih =>
    cases op with
    | set i u =>
      show getProgress (applyOps (updateProgress m i u) rest) generationId
        = lastWrite generationId
            (if i = generationId then some u
             else getProgress m generationId) rest
      rw [ih, getProgress_update]
    | del i =>
      show getProgress (applyOps (clearProgress m i) rest) generationId
        = lastWrite generationId
            (if i = generationId then none
             else getProgress m generationId) rest
      rw [ih, getProgress_clear]

/-- C9: `getProgress` returns exactly the record most recently set and not
yet deleted for an identifier, and returns absent - without throwing,
being a total function - when no record exists: on a fresh store, after a
delete, or for a never-set identifier; and deleting an absent identifier
is a no-op. -/
theorem c9_store_contract :
    (∀ (m : ProgressStore) (ops : List StoreOp) (generationId : String),
      getProgress (applyOps m ops) generationId
        = lastWrite generationId (getProgress m generationId) ops)
    ∧ (∀ generationId : String, getProgress [] generationId = none)
    ∧ (∀ (m : ProgressStore) (i generationId : String),
        getProgress (clearProgress m i) generationId
          = if i = generationId then none
            else getProgress m generationId)
    ∧ (∀ (m : ProgressStore) (generationId : String),
        getProgress m generationId = none →
          clearProgress m generationId = m) :=
  ⟨getProgress_applyOps, fun _ => rfl, getProgress_clear, clearProgress_absent⟩

/-- Witness for C9 at a concrete store: a never-set identifier reads as
absent and deleting it is a no-op. -/
theorem c9_store_contract_witness :
    getProgress [("gen1", startingRecord)] "gen2" = none
    ∧ clearProgress [("gen1", startingRecord)] "gen2"
        = [("gen1", startingRecord)] := by
  refine ⟨rfl, ?_⟩
  exact c9_store_contract.2.2.2 [("gen1", startingRecord)] "gen2" rfl

/-- The polling loop performs at most `remaining` further polls. -/
theorem waitFrom_polls_le (getStatus : Nat → PredStatus)
    (attempts remaining : Nat) :
    (waitFrom getStatus attempts remaining).polls ≤ attempts + remaining := by
  induction remaining generalizing attempts with
  | zero => simp [waitFrom]
  | succ r ih =>
    unfold waitFrom
    dsimp only
    by_cases h1 : (getStatus attempts).status = ExternalStatus.succeeded
    · rw [if_pos h1]
      show attempts + 1 ≤ attempts + (r + 1)
      omega
    rw [if_neg h1]
    by_cases h2 : (getStatus attempts).status = ExternalStatus.failed
    · rw [if_pos h2]
      show attempts + 1 ≤ attempts + (r + 1)
      omega
    rw [if_neg h2]
    by_cases h3 : (getStatus attempts).status = ExternalStatus.canceled
    · rw [if_pos h3]
      show attempts + 1 ≤ attempts + (r + 1)
      omega
    rw [if_neg h3]
    calc (waitFrom getStatus (attempts + 1) r).polls
        ≤ (attempts + 1) + r := ih (attempts + 1)
      _ = attempts + (r + 1) := by omega

/-- Against a service that never leaves `processing`, the loop exhausts
every remaining attempt and times out. -/
theorem waitFrom_processing (getStatus : Nat → PredStatus)
    (h : ∀ n, (getStatus n).status = ExternalStatus.processing)
    (attempts remaining : Nat) :
    waitFrom getStatus attempts remaining
      = WaitResult.mk (Except.error "Prediction timed out")
          (attempts + remaining) := by
  induction remaining generalizing attempts with
  | zero => simp [waitFrom]
  | succ r ih =>
    unfold waitFrom
    dsimp only
    rw [if_neg (by simp [h attempts]), if_neg (by simp [h attempts]),
      if_neg (by simp [h attempts]), ih (attempts + 1)]
    congr 1
    omega

/-- C5: for every sequence of external statuses, the polling loop of
`waitForPrediction` performs at most 30 polls (the fixed inter-poll delay
being 2000 ms), and against a service that never leaves `processing` it
terminates with the timeout failure after exactly 30 polls, not before
and not after.  Confirmed. -/
theorem c5_polling_bound :
    pollDelayMs = 2000
    ∧ maxAttempts = 30
    ∧ (∀ getStatus : Nat → PredStatus,
        (waitForPrediction getStatus).polls ≤ 30)
    ∧ (∀ getStatus : Nat → PredStatus,
        (∀ n, (getStatus n).status = ExternalStatus.processing) →
          waitForPrediction getStatus
            = WaitResult.mk (Except.error "Prediction timed out") 30) := by
  refine ⟨rfl, rfl, ?_, ?_⟩
  · intro getStatus
    simpa using waitFrom_polls_le getStatus 0 maxAttempts
  · intro getStatus h
    simpa using waitFrom_processing getStatus h 0 maxAttempts

/-- Witness for C5: the concrete always-processing oracle times out with
exactly 30 polls. -/
theorem c5_polling_bound_witness :
    waitForPrediction processingOracle
      = WaitResult.mk (Except.error "Prediction timed out") 30 :=
  c5_polling_bound.2.2.2 processingOracle (fun _ => rfl)

/-- C6: whenever the external service reports `succeeded` with an empty or
missing output (empty array, null, or absent field), the generate
endpoint of the polling snapshot answers 500 "No valid images were
generated" - never a success response.  Confirmed. -/
theorem c6_empty_success_is_failure (store : ProgressStore) (b : ReqBody)
    (getStatus : Nat → PredStatus) (output : JSValue)
    (himg : falsy b.image = false) (htr : falsy b.transformation = false)
    (hm : lookupStr modelMap (b.transformation.getD "") = some sdxlModel)
    (hp : ∃ pr, lookupStr promptMap (b.transformation.getD "") = some pr)
    (hw : (waitForPrediction getStatus).outcome = Except.ok output)
    (he : emptyOutput output) :
    (GenerateRouteC.POST store (Except.ok b) (Except.ok ()) getStatus).resp
      = HttpResponse.mk 500 (errorBody "No valid images were generated")
    ∧ (GenerateRouteC.POST store (Except.ok b) (Except.ok ()) getStatus).resp.status ≠ 200 := by
  obtain ⟨pr, hp⟩ := hp
  have hempty : imageUrlsOf output = [] := by
    rcases he with h | h | h <;> subst h <;> rfl
  have hmain :
      (GenerateRouteC.POST store (Except.ok b) (Except.ok ()) getStatus).resp
        = HttpResponse.mk 500 (errorBody "No valid images were generated") := by
    unfold GenerateRouteC.POST
    dsimp only
    rw [if_neg (by simp [himg, htr]), hm, hp]
    dsimp only
    rw [hw]
    dsimp only
    rw [if_pos hempty]
  exact ⟨hmain, by rw [hmain]; decide⟩

/-- Witness for C6 at a concrete run: `succeeded` with an empty output
list yields the 500 response. -/
theorem c6_empty_success_is_failure_witness :
    (GenerateRouteC.POST [] (Except.ok validBody) (Except.ok ())
        emptySuccessOracle).resp
      = HttpResponse.mk 500 (errorBody "No valid images were generated") :=
  (c6_empty_success_is_failure [] validBody emptySuccessOracle
    (JSValue.arr []) rfl rfl rfl ⟨_, rfl⟩ rfl (Or.inl rfl)).1

mutual

/-- Every string collected by `findUrls` starts with `http`. -/
theorem findUrls_mem_http :
    ∀ (v : JSValue) (s : String), s ∈ findUrls v →
      jsStartsWith s "http" = true
  | JSValue.str t => by
      intro s hs
      unfold findUrls at hs
      cases h : jsStartsWith t "http" with
      | true =>
          rw [h] at hs
          simp at hs
          rw [hs]
          exact h
      | false =>
          rw [h] at hs
          simp at hs
  | JSValue.arr xs => by
      intro s hs
      unfold findUrls at hs
      exact findUrlsList_mem_http xs s hs
  | JSValue.obj fs => by
      intro s hs
      unfold findUrls at hs
      exact findUrlsFields_mem_http fs s hs
  | JSValue.undef => by intro s hs; simp [findUrls] at hs
  | JSValue.null => by intro s hs; simp [findUrls] at hs
  | JSValue.bool b => by intro s hs; simp [findUrls] at hs
  | JSValue.num n => by intro s hs; simp [findUrls] at hs

/-- Every string collected by `findUrlsList` starts with `http`. -/
theorem findUrlsList_mem_http :
    ∀ (xs : List JSValue) (s : String), s ∈ findUrlsList xs →
      jsStartsWith s "http" = true
  | [] => by intro s hs; simp [findUrlsList] at hs
  | v :: vs => by
      intro s hs
      unfold findUrlsList at hs
      rcases List.mem_append.mp hs with h | h
      · exact findUrls_mem_http v s h
      · exact findUrlsList_mem_http vs s h

/-- Every string collected by `findUrlsFields` starts with `http`. -/
theorem findUrlsFields_mem_http :
    ∀ (fs : List (String × JSValue)) (s : String), s ∈ findUrlsFields fs →
      jsStartsWith s "http" = true
  | [] => by intro s hs; simp [findUrlsFields] at hs
  | p :: ps => by
      intro s hs
      unfold findUrlsFields at hs
      rcases List.mem_append.mp hs with h | h
      · exact findUrls_mem_http p.2 s h
      · exact findUrlsFields_mem_http ps s h

end

/-- Every URL extracted by the polling-snapshot response dispatch starts
with `http`. -/
theorem imageUrlsOf_mem_http (v : JSValue) :
    ∀ s ∈ imageUrlsOf v, jsStartsWith s "http" = true := by
  intro s hs
  unfold imageUrlsOf at hs
  match v with
  | JSValue.arr xs =>
      obtain ⟨x, _, hfx⟩ := List.mem_filterMap.mp hs
      match x with
      | JSValue.str t =>
          dsimp only at hfx
          cases h : jsStartsWith t "http" with
          | true =>
              rw [h] at hfx
              simp at hfx
              rw [← hfx]
              exact h
          | false =>
              rw [h] at hfx
              simp at hfx
      | JSValue.undef => simp at hfx
      | JSValue.null => simp at hfx
      | JSValue.bool b => simp at hfx
      | JSValue.num n => simp at hfx
      | JSValue.arr ys => simp at hfx
      | JSValue.obj gs => simp at hfx
  | JSValue.obj fs => exact findUrlsFields_mem_http fs s hs
  | JSValue.undef => simp at hs
  | JSValue.null => simp at hs
  | JSValue.bool b => simp at hs
  | JSValue.num n => simp at hs
  | JSValue.str t => simp at hs

/-- Any 200 answer of the polling-snapshot POST carries a non-empty
`images` array whose elements all start with `http`. -/
theorem routeC_ok_images (store : ProgressStore)
    (body : Except String ReqBody) (create : Except String Unit)
    (getStatus : Nat → PredStatus)
    (h : (GenerateRouteC.POST store body create getStatus).resp.status = 200) :
    ∃ urls, urls ≠ []
      ∧ jsLookup (GenerateRouteC.POST store body create getStatus).resp.body
          "images" = some (JSValue.arr (urls.map JSValue.str))
      ∧ ∀ u ∈ urls, jsStartsWith u "http" = true := by
  unfold GenerateRouteC.POST at h ⊢
  match body with
  | Except.error e => simp at h
  | Except.ok b =>
    dsimp only at h ⊢
    by_cases hf : (falsy b.image = true ∨ falsy b.transformation = true)
    · rw [if_pos hf] at h
      simp at h
    rw [if_neg hf] at h ⊢
    cases hmv : lookupStr modelMap (b.transformation.getD "") with
    | none =>
        rw [hmv] at h
        simp at h
    | some mv =>
        rw [hmv] at h
        cases hpv : lookupStr promptMap (b.transformation.getD "") with
        | none =>
            rw [hpv] at h
            simp at h
        | some pv =>
            rw [hpv] at h
            match create with
            | Except.error e => simp at h
            | Except.ok _ =>
              dsimp only at h ⊢
              cases hw : (waitForPrediction getStatus).outcome with
              | error e =>
                  rw [hw] at h
                  simp at h
              | ok output =>
                  rw [hw] at h
                  dsimp only at h ⊢
                  by_cases hne : imageUrlsOf output = []
                  · rw [if_pos hne] at h
                    simp at h
                  · rw [if_neg hne] at h ⊢
                    exact ⟨imageUrlsOf output, hne, rfl,
                      imageUrlsOf_mem_http output⟩

/-- Any 200 answer of the second route.ts POST carries a non-empty
`images` array whose elements are non-empty strings (no scheme check). -/
theorem routeB_ok_images (store : ProgressStore)
    (body : Except String ReqBody) (run : Except String JSValue)
    (h : (GenerateRouteB.POST store body run).resp.status = 200) :
    ∃ urls, urls ≠ []
      ∧ jsLookup (GenerateRouteB.POST store body run).resp.body "images"
          = some (JSValue.arr (urls.map JSValue.str))
      ∧ ∀ u ∈ urls, ¬ u = "" := by
  unfold GenerateRouteB.POST at h ⊢
  match body with
  | Except.error e => simp at h
  | Except.ok b =>
    dsimp only at h ⊢
    by_cases hf : (falsy b.image = true ∨ falsy b.transformation = true)
    · rw [if_pos hf] at h
      simp at h
    rw [if_neg hf] at h ⊢
    cases hmv : lookupStr modelMap (b.transformation.getD "") with
    | none =>
        rw [hmv] at h
        simp at h
    | some mv =>
        rw [hmv] at h
        cases hpv : lookupStr promptMap (b.transformation.getD "") with
        | none =>
            rw [hpv] at h
            simp at h
        | some pv =>
            rw [hpv] at h
            match run with
            | Except.error e => simp at h
            | Except.ok output =>
              dsimp only at h ⊢
              match output with
              | JSValue.undef => simp at h
              | JSValue.null => simp at h
              | JSValue.bool bb => simp at h
              | JSValue.num n => simp at h
              | JSValue.str s => simp at h
              | JSValue.obj fs => simp at h
              | JSValue.arr xs =>
                dsimp only at h ⊢
                by_cases hne :
                    List.filterMap
                      (fun v =>
                        match v with
                        | JSValue.str s =>
                            if 0 < String.length s then some s else none
                        | _ => none)
                      xs = []
                · rw [if_pos hne] at h
                  simp at h
                · rw [if_neg hne] at h ⊢
                  refine ⟨_, hne, rfl, ?_⟩
                  intro u hu
                  obtain ⟨x, _, hfx⟩ := List.mem_filterMap.mp hu
                  match x with
                  | JSValue.str t =>
                      dsimp only at hfx
                      by_cases hlen : 0 < String.length t
                      · rw [if_pos hlen] at hfx
                        simp at hfx
                        subst hfx
                        intro hcon
                        rw [hcon] at hlen
                        simp at hlen
                      · rw [if_neg hlen] at hfx
                        simp at hfx
                  | JSValue.undef => simp at hfx
                  | JSValue.null => simp at hfx
                  | JSValue.bool bb => simp at hfx
                  | JSValue.num n => simp at hfx
                  | JSValue.arr ys => simp at hfx
                  | JSValue.obj gs => simp at hfx

/-- C2 counterexample: with a valid body and an external output `["x"]`,
the second route.ts snapshot of POST /generate answers 200 with
`images = ["x"]`, whose only element is not scheme-prefixed - its filter
keeps any non-empty string.  The claim as stated is false for that
snapshot. -/
theorem c2_counterexample :
    (GenerateRouteB.POST [] (Except.ok validBody)
        (Except.ok (JSValue.arr [JSValue.str "x"]))).resp.status = 200
    ∧ jsLookup (GenerateRouteB.POST [] (Except.ok validBody)
        (Except.ok (JSValue.arr [JSValue.str "x"]))).resp.body "images"
        = some (JSValue.arr [JSValue.str "x"])
    ∧ jsStartsWith "x" "http" = false :=
  ⟨rfl, rfl, rfl⟩

/-- C2 amended: the polling snapshot of POST /generate answers 200 only
with a non-empty `images` array all of whose elements start with `http`;
the second route.ts snapshot answers 200 only with a non-empty `images`
array of non-empty strings, with no scheme guarantee.  Neither ever
answers 200 with an empty `images` array. -/
theorem c2_amended_images :
    (∀ (store : ProgressStore) (body : Except String ReqBody)
        (create : Except String Unit) (getStatus : Nat → PredStatus),
      (GenerateRouteC.POST store body create getStatus).resp.status = 200 →
        ∃ urls, urls ≠ []
          ∧ jsLookup (GenerateRouteC.POST store body create getStatus).resp.body
              "images" = some (JSValue.arr (urls.map JSValue.str))
          ∧ ∀ u ∈ urls, jsStartsWith u "http" = true)
    ∧ (∀ (store : ProgressStore) (body : Except String ReqBody)
        (run : Except String JSValue),
      (GenerateRouteB.POST store body run).resp.status = 200 →
        ∃ urls, urls ≠ []
          ∧ jsLookup (GenerateRouteB.POST store body run).resp.body "images"
              = some (JSValue.arr (urls.map JSValue.str))
          ∧ ∀ u ∈ urls, ¬ u = "") :=
  ⟨routeC_ok_images, routeB_ok_images⟩

/-- Witness for the amended C2 at a concrete 200 run of the
polling-snapshot POST. -/
theorem c2_amended_images_witness :
    ∃ urls, urls ≠ []
      ∧ jsLookup (GenerateRouteC.POST [] (Except.ok validBody)
          (Except.ok ()) successOracle).resp.body "images"
          = some (JSValue.arr (urls.map JSValue.str))
      ∧ ∀ u ∈ urls, jsStartsWith u "http" = true :=
  c2_amended_images.1 [] (Except.ok validBody) (Except.ok ()) successOracle
    rfl

/-- C1 counterexample: on a concrete fully successful request, both cited
snapshots of POST /generate answer 200 with the images list but with no
`generationId` key in the body, and the progress store is left exactly as
it was (empty) - no `starting` record is ever seeded. -/
theorem c1_counterexample :
    (GenerateRouteC.POST [] (Except.ok validBody) (Except.ok ())
        successOracle).resp.status = 200
    ∧ jsLookup (GenerateRouteC.POST [] (Except.ok validBody) (Except.ok ())
        successOracle).resp.body "images"
        = some (JSValue.arr [JSValue.str "http://x/1.png"])
    ∧ jsLookup (GenerateRouteC.POST [] (Except.ok validBody) (Except.ok ())
        successOracle).resp.body "generationId" = none
    ∧ (GenerateRouteC.POST [] (Except.ok validBody) (Except.ok ())
        successOracle).store = ([] : ProgressStore)
    ∧ (GenerateRouteA.POST [] (Except.ok validBody)
        (Except.ok (JSValue.arr [JSValue.str "http://x/1.png"]))).resp.status
        = 200
    ∧ jsLookup (GenerateRouteA.POST [] (Except.ok validBody)
        (Except.ok (JSValue.arr [JSValue.str "http://x/1.png"]))).resp.body
        "generationId" = none
    ∧ (GenerateRouteA.POST [] (Except.ok validBody)
        (Except.ok (JSValue.arr [JSValue.str "http://x/1.png"]))).store
        = ([] : ProgressStore) :=
  ⟨rfl, rfl, rfl, rfl, rfl, rfl, rfl⟩

/-- C1 amended: for every valid generation request that the external
service completes successfully, POST /generate responds 200 with the
images list, but the response body carries no `generationId` and
ProgressStore is returned unchanged - the handler never seeds it. -/
theorem c1_amended_success_response (store : ProgressStore) (b : ReqBody)
    (getStatus : Nat → PredStatus) (run : Except String JSValue)
    (output : JSValue) (mv pr : String)
    (himg : falsy b.image = false) (htr : falsy b.transformation = false)
    (hm : lookupStr modelMap (b.transformation.getD "") = some mv)
    (hp : lookupStr promptMap (b.transformation.getD "") = some pr)
    (hw : (waitForPrediction getStatus).outcome = Except.ok output)
    (hne : ¬ imageUrlsOf output = []) :
    ((GenerateRouteC.POST store (Except.ok b) (Except.ok ())
        getStatus).resp.status = 200
      ∧ jsLookup (GenerateRouteC.POST store (Except.ok b) (Except.ok ())
          getStatus).resp.body "images"
          = some (JSValue.arr ((imageUrlsOf output).map JSValue.str))
      ∧ jsLookup (GenerateRouteC.POST store (Except.ok b) (Except.ok ())
          getStatus).resp.body "generationId" = none
      ∧ (GenerateRouteC.POST store (Except.ok b) (Except.ok ())
          getStatus).store = store)
    ∧ (∀ out2, run = Except.ok out2 →
        (GenerateRouteA.POST store (Except.ok b) run).resp.status = 200
        ∧ jsLookup (GenerateRouteA.POST store (Except.ok b) run).resp.body
            "generationId" = none
        ∧ (GenerateRouteA.POST store (Except.ok b) run).store = store) := by
  constructor
  · unfold GenerateRouteC.POST
    dsimp only
    rw [if_neg (by simp [himg, htr]), hm, hp]
    dsimp only
    rw [hw]
    dsimp only
    rw [if_neg hne]
    exact ⟨rfl, rfl, rfl, rfl⟩
  · intro out2 hrun
    subst hrun
    unfold GenerateRouteA.POST
    dsimp only
    rw [if_neg (by simp [himg, htr]), hm, hp]
    exact ⟨rfl, rfl, rfl⟩

/-- Witness for the amended C1 at a concrete successful run. -/
theorem c1_amended_success_response_witness :
    (GenerateRouteC.POST [] (Except.ok validBody) (Except.ok ())
        successOracle).resp.status = 200
    ∧ jsLookup (GenerateRouteC.POST [] (Except.ok validBody) (Except.ok ())
        successOracle).resp.body "generationId" = none :=
  ⟨(c1_amended_success_response [] validBody successOracle
      (Except.ok JSValue.null) (JSValue.arr [JSValue.str "http://x/1.png"])
      sdxlModel (promptMap.get ⟨0, by decide⟩).2 rfl rfl rfl rfl rfl
      (by decide)).1.1,
   (c1_amended_success_response [] validBody successOracle
      (Except.ok JSValue.null) (JSValue.arr [JSValue.str "http://x/1.png"])
      sdxlModel (promptMap.get ⟨0, by decide⟩).2 rfl rfl rfl rfl rfl
      (by decide)).1.2.2.1⟩

/-- C3 counterexample: with a store seeded with a `starting` record for
`gen1` and an external service that reports `failed`, the waiter throws
and the endpoint answers 500, yet the store still holds the `starting`
record - it was never updated to `error`. -/
theorem c3_counterexample :
    (waitForPrediction failedOracle).outcome
        = Except.error "Prediction failed: boom"
    ∧ (GenerateRouteC.POST seededStore (Except.ok validBody) (Except.ok ())
        failedOracle).resp.status = 500
    ∧ (GenerateRouteC.POST seededStore (Except.ok validBody) (Except.ok ())
        failedOracle).store = seededStore
    ∧ getProgress (GenerateRouteC.POST seededStore (Except.ok validBody)
        (Except.ok ()) failedOracle).store "gen1" = some startingRecord
    ∧ ¬ startingRecord.status = Status.error := by
  refine ⟨rfl, rfl, rfl, rfl, ?_⟩
  decide

/-- C3 amended: on every polling/terminal failure of `waitForPrediction`
the failure propagates to the generate endpoint as a 500 response, but
ProgressStore is not touched: no record is updated to `error`, so a
concurrently open stream observes nothing. -/
theorem c3_amended_failure_propagates (store : ProgressStore) (b : ReqBody)
    (getStatus : Nat → PredStatus) (e : String) (mv pr : String)
    (himg : falsy b.image = false) (htr : falsy b.transformation = false)
    (hm : lookupStr modelMap (b.transformation.getD "") = some mv)
    (hp : lookupStr promptMap (b.transformation.getD "") = some pr)
    (hw : (waitForPrediction getStatus).outcome = Except.error e) :
    (GenerateRouteC.POST store (Except.ok b) (Except.ok ()) getStatus).resp
      = HttpResponse.mk 500 (errorBody "Failed to generate images")
    ∧ (GenerateRouteC.POST store (Except.ok b) (Except.ok ())
        getStatus).store = store
    ∧ (∀ generationId,
        getProgress (GenerateRouteC.POST store (Except.ok b) (Except.ok ())
          getStatus).store generationId = getProgress store generationId) := by
  have hbranch :
      GenerateRouteC.POST store (Except.ok b) (Except.ok ()) getStatus
        = PostOutcome.mk
            (HttpResponse.mk 500 (errorBody "Failed to generate images"))
            store true := by
    unfold GenerateRouteC.POST
    dsimp only
    rw [if_neg (by simp [himg, htr]), hm, hp]
    dsimp only
    rw [hw]
  rw [hbranch]
  exact ⟨rfl, rfl, fun _ => rfl⟩

/-- Witness for the amended C3 at a concrete failing run over a seeded
store. -/
theorem c3_amended_failure_propagates_witness :
    (GenerateRouteC.POST seededStore (Except.ok validBody) (Except.ok ())
        failedOracle).resp
      = HttpResponse.mk 500 (errorBody "Failed to generate images")
    ∧ getProgress (GenerateRouteC.POST seededStore (Except.ok validBody)
        (Except.ok ()) failedOracle).store "gen1"
      = getProgress seededStore "gen1" :=
  ⟨(c3_amended_failure_propagates seededStore validBody failedOracle
      "Prediction failed: boom" sdxlModel
      (promptMap.get ⟨0, by decide⟩).2 rfl rfl rfl rfl rfl).1,
   (c3_amended_failure_propagates seededStore validBody failedOracle
      "Prediction failed: boom" sdxlModel
      (promptMap.get ⟨0, by decide⟩).2 rfl rfl rfl rfl rfl).2.2 "gen1"⟩

/-- C4 counterexample: in the stream snapshot that closes only on
`complete`, a record with terminal status `error` is pushed on one tick
and pushed again on the next, with the stream still open - events
continue after a terminal-status push. -/
theorem c4_counterexample :
    errorRecord.status = Status.error
    ∧ ProgressRouteA.runTicks "gen1" true [errorStore, errorStore]
        = (true, [errorRecord, errorRecord]) :=
  ⟨rfl, rfl⟩

/-- C4 amended: when an interval tick pushes a record with status
`complete` or `error`, the utils-importing stream snapshot clears its
interval and closes, and a closed stream pushes nothing further; the
store-embedding snapshot does so only for `complete` (also deleting the
record), `error` pushes leaving it open. -/
theorem c4_amended_terminal_close :
    (∀ (generationId : String) (store : ProgressStore) (p : ProgressUpdate),
      (ProgressRouteB.tick generationId store true).event = some p →
        (p.status = Status.complete ∨ p.status = Status.error) →
          (ProgressRouteB.tick generationId store true).isOpen = false)
    ∧ (∀ (generationId : String) (snaps : List ProgressStore),
        ProgressRouteB.runTicks generationId false snaps = (false, []))
    ∧ (∀ (generationId : String) (store : ProgressStore) (p : ProgressUpdate),
        (ProgressRouteA.tick generationId store true).event = some p →
          p.status = Status.complete →
            (ProgressRouteA.tick generationId store true).isOpen = false
            ∧ (ProgressRouteA.tick generationId store true).store
                = clearProgress store generationId)
    ∧ (∀ (generationId : String) (snaps : List ProgressStore),
        ProgressRouteA.runTicks generationId false snaps = (false, [])) := by
  refine ⟨?_, ?_, ?_, ?_⟩
  · intro generationId store p hev hterm
    unfold ProgressRouteB.tick at hev ⊢
    rw [if_pos rfl] at hev ⊢
    cases hg : getProgress store generationId with
    | none =>
        rw [hg] at hev
        simp at hev
    | some q =>
        rw [hg] at hev
        dsimp only at hev ⊢
        by_cases hq : q.status = Status.complete ∨ q.status = Status.error
        · rw [if_pos hq]
        · rw [if_neg hq] at hev
          dsimp only at hev
          rw [Option.some_inj] at hev
          subst hev
          exact absurd hterm hq
  · intro generationId snaps
    induction snaps with
    | nil => rfl
    | cons s rest ih =>
        unfold ProgressRouteB.runTicks ProgressRouteB.tick
        rw [if_neg (by simp)]
        dsimp only
        rw [ih]
        rfl
  · intro generationId store p hev hterm
    unfold ProgressRouteA.tick at hev ⊢
    rw [if_pos rfl] at hev ⊢
    cases hg : getProgress store generationId with
    | none =>
        rw [hg] at hev
        simp at hev
    | some q =>
        rw [hg] at hev
        dsimp only at hev ⊢
        by_cases hq : q.status = Status.complete
        · rw [if_pos hq] at hev ⊢
          exact ⟨rfl, rfl⟩
        · rw [if_neg hq] at hev
          dsimp only at hev
          rw [Option.some_inj] at hev
          subst hev
          exact absurd hterm hq
  · intro generationId snaps
    induction snaps with
    | nil => rfl
    | cons s rest ih =>
        unfold ProgressRouteA.runTicks ProgressRouteA.tick
        rw [if_neg (by simp)]
        dsimp only
        rw [ih]
        rfl

/-- Witness for the amended C4 at concrete terminal records. -/
theorem c4_amended_terminal_close_witness :
    (ProgressRouteB.tick "gen1" errorStore true).isOpen = false
    ∧ (ProgressRouteA.tick "gen1" completeStore true).isOpen = false
    ∧ ProgressRouteA.runTicks "gen1" false [errorStore] = (false, []) :=
  ⟨c4_amended_terminal_close.1 "gen1" errorStore errorRecord rfl
      (Or.inr rfl),
   (c4_amended_terminal_close.2.2.1 "gen1" completeStore completeRecord rfl
      rfl).1,
   c4_amended_terminal_close.2.2.2 "gen1" [errorStore]⟩

/-- C7: for an identifier that is absent from the store at stream open and
at every tick, both stream snapshots push no events (including the
on-open push), never close on their own, leave the store untouched, and
the abort handler closes the stream on client disconnect.  The run
functions are total, so no tick can throw.  Confirmed. -/
theorem c7_unknown_id_stream (generationId : String) (s0 : ProgressStore)
    (snaps : List ProgressStore)
    (h0 : getProgress s0 generationId = none)
    (h : ∀ s ∈ snaps, getProgress s generationId = none) :
    initialPush generationId s0 = none
    ∧ ProgressRouteA.runTicks generationId true snaps = (true, [])
    ∧ ProgressRouteB.runTicks generationId true snaps = (true, [])
    ∧ (∀ s ∈ snaps, (ProgressRouteA.tick generationId s true).store = s)
    ∧ abortStream true = false := by
  refine ⟨h0, ?_, ?_, ?_, rfl⟩
  · induction snaps with
    | nil => rfl
    | cons s rest ih =>
        unfold ProgressRouteA.runTicks ProgressRouteA.tick
        rw [if_pos rfl, h s (by simp)]
        dsimp only
        rw [ih (fun x hx => h x (by simp [hx]))]
        rfl
  · induction snaps with
    | nil => rfl
    | cons s rest ih =>
        unfold ProgressRouteB.runTicks ProgressRouteB.tick
        rw [if_pos rfl, h s (by simp)]
        dsimp only
        rw [ih (fun x hx => h x (by simp [hx]))]
        rfl
  · intro s hs
    unfold ProgressRouteA.tick
    rw [if_pos rfl, h s hs]

/-- Witness for C7 at a concrete never-seeded identifier over two ticks. -/
theorem c7_unknown_id_stream_witness :
    ProgressRouteA.runTicks "nope" true [[], errorStore] = (true, [])
    ∧ ProgressRouteB.runTicks "nope" true [[], errorStore] = (true, []) := by
  have hres := c7_unknown_id_stream "nope" [] [[], errorStore] rfl
    (by intro s hs; fin_cases hs <;> rfl)
  exact ⟨hres.2.1, hres.2.2.1⟩

/-- C8: for a parsed body with a missing or empty image, a missing or
empty transformation, or a transformation that is not a key of
`modelMap`, both cited snapshots of POST /generate answer 400 with a
descriptive message, leave ProgressStore unchanged, and never reach the
external submission call.  Confirmed. -/
theorem c8_validation_400 (store : ProgressStore) (b : ReqBody)
    (run : Except String JSValue) (create : Except String Unit)
    (getStatus : Nat → PredStatus)
    (h : falsy b.image = true ∨ falsy b.transformation = true
      ∨ lookupStr modelMap (b.transformation.getD "") = none) :
    ((∃ msg, (GenerateRouteA.POST store (Except.ok b) run).resp
        = HttpResponse.mk 400 (errorBody msg))
      ∧ (GenerateRouteA.POST store (Except.ok b) run).store = store
      ∧ (GenerateRouteA.POST store (Except.ok b) run).submitted = false)
    ∧ ((∃ msg, (GenerateRouteC.POST store (Except.ok b) create
          getStatus).resp = HttpResponse.mk 400 (errorBody msg))
      ∧ (GenerateRouteC.POST store (Except.ok b) create getStatus).store
          = store
      ∧ (GenerateRouteC.POST store (Except.ok b) create
          getStatus).submitted = false) := by
  by_cases hf : (falsy b.image = true ∨ falsy b.transformation = true)
  · constructor
    · unfold GenerateRouteA.POST
      dsimp only
      rw [if_pos hf]
      exact ⟨⟨"Image and transformation are required", rfl⟩, rfl, rfl⟩
    · unfold GenerateRouteC.POST
      dsimp only
      rw [if_pos hf]
      exact ⟨⟨"Image and transformation are required", rfl⟩, rfl, rfl⟩
  · have hm : lookupStr modelMap (b.transformation.getD "") = none := by
      rcases h with h | h | h
      · exact absurd (Or.inl h) hf
      · exact absurd (Or.inr h) hf
      · exact h
    constructor
    · unfold GenerateRouteA.POST
      dsimp only
      rw [if_neg hf, hm]
      exact ⟨⟨"Invalid transformation", rfl⟩, rfl, rfl⟩
    · unfold GenerateRouteC.POST
      dsimp only
      rw [if_neg hf, hm]
      exact ⟨⟨"Invalid transformation", rfl⟩, rfl, rfl⟩

/-- Witness for C8 at a concrete unrecognized transformation. -/
theorem c8_validation_400_witness :
    (GenerateRouteA.POST [] (Except.ok (ReqBody.mk (some "img")
        (some "unknown"))) (Except.ok JSValue.null)).resp.status = 400
    ∧ (GenerateRouteC.POST [] (Except.ok (ReqBody.mk (some "img")
        (some "unknown"))) (Except.ok ()) successOracle).resp.status = 400
    ∧ (GenerateRouteC.POST [] (Except.ok (ReqBody.mk (some "img")
        (some "unknown"))) (Except.ok ()) successOracle).store
        = ([] : ProgressStore)
    ∧ (GenerateRouteC.POST [] (Except.ok (ReqBody.mk (some "img")
        (some "unknown"))) (Except.ok ()) successOracle).submitted
        = false := by
  have hres := c8_validation_400 [] (ReqBody.mk (some "img") (some "unknown"))
    (Except.ok JSValue.null) (Except.ok ()) successOracle
    (Or.inr (Or.inr rfl))
  obtain ⟨⟨⟨msgA, hA⟩, _, _⟩, ⟨⟨msgC, hC⟩, hCs, hCsub⟩⟩ := hres
  exact ⟨by rw [hA], by rw [hC], hCs, hCsub⟩

/-- C10: when the request body fails to parse as JSON, all three snapshots
of POST /generate answer with the 500 of their catch-all handler - never
the 400 validation response - leave ProgressStore unchanged, and never
reach the external submission call.  Confirmed. -/
theorem c10_invalid_json_500 (store : ProgressStore) (e : String)
    (run : Except String JSValue) (create : Except String Unit)
    (getStatus : Nat → PredStatus) :
    GenerateRouteA.POST store (Except.error e) run
      = PostOutcome.mk
          (HttpResponse.mk 500 (errorBody "Failed to generate images"))
          store false
    ∧ GenerateRouteB.POST store (Except.error e) run
      = PostOutcome.mk
          (HttpResponse.mk 500 (errorBody "Failed to generate images"))
          store false
    ∧ GenerateRouteC.POST store (Except.error e) create getStatus
      = PostOutcome.mk
          (HttpResponse.mk 500 (errorBody "An unexpected error occurred"))
          store false
    ∧ ¬ (GenerateRouteC.POST store (Except.error e) create
        getStatus).resp.status = 400 :=
  ⟨rfl, rfl, rfl, by
    intro hcon
    have h500 : (500 : Nat) = 400 := hcon
    omega⟩

